import Mathlib

/-!
Formalisation of the PCG32 pseudorandom number generator from `src/lib.rs`
(crate `pcg32`). Machine integers (`u64`, `u32`) are modelled as `Nat` with
explicit `% 2 ^ 64` / `% 2 ^ 32` at every point where the Rust code wraps or
truncates. Each operation of the crate (`new`, `generate`, `gen`, `default`)
gets a Lean function; the stateful `generate(&mut self)` becomes a pure
function returning the output together with the successor generator.
-/

/-- PCG32 multiplier, the `const MUL: u64` of the crate. -/
def MUL : Nat := 6364136223846793005

/-- Model of the Rust struct `Pcg32 { state: u64, inc: u64 }`. Both fields are
naturals; every operation keeps them below `2 ^ 64`. -/
structure Pcg32 where
  state : Nat
  inc : Nat
deriving DecidableEq

namespace Pcg32

/-- Model of `Pcg32::new(initstate, initseq)`: `inc = (initseq << 1) | 1` with
the 64-bit left shift wrapping, then
`state = inc.wrapping_add(initstate).wrapping_mul(MUL).wrapping_add(inc)`,
each wrapping operation taken `% 2 ^ 64`. -/
def new (initstate initseq : Nat) : Pcg32 :=
  let inc := ((initseq <<< 1) % 2 ^ 64) ||| 1
  { state := (((inc + initstate) % 2 ^ 64) * MUL % 2 ^ 64 + inc) % 2 ^ 64
    inc := inc }

/-- The `(((s >> 18) ^ s) >> 27) as u32` expression of `Pcg32::generate`; the
`as u32` cast is truncation `% 2 ^ 32`. -/
def xorshift32 (s : Nat) : Nat := (((s >>> 18) ^^^ s) >>> 27) % 2 ^ 32

/-- The `(s >> 59) as u32` rotation amount of `Pcg32::generate`. -/
def rotAmount (s : Nat) : Nat := (s >>> 59) % 2 ^ 32

/-- Model of `u32::rotate_right`: a 32-bit circular right rotation, where the
rotation amount is taken modulo 32 and the left-shift part is truncated to 32
bits as the `u32` arithmetic does. -/
def rotr32 (x r : Nat) : Nat :=
  ((x >>> (r % 32)) ||| ((x <<< (32 - r % 32)) % 2 ^ 32)) % 2 ^ 32

/-- Model of `Pcg32::generate`: captures `s = state`, sets
`state = s.wrapping_mul(MUL).wrapping_add(inc)` and returns the rotated
xorshifted output; the pair is (returned value, generator after mutation). -/
def generate (g : Pcg32) : Nat × Pcg32 :=
  let s := g.state
  (rotr32 (xorshift32 s) (rotAmount s),
   { state := (s * MUL % 2 ^ 64 + g.inc) % 2 ^ 64, inc := g.inc })

/-- Model of the hidden alias `Pcg32::gen`, which just calls `generate`. -/
def gen (g : Pcg32) : Nat × Pcg32 := generate g

/-- Model of `impl Default for Pcg32`: the two hardcoded constants. -/
def default : Pcg32 :=
  { state := 0x853c49e6748fea9b, inc := 0xda3e39cb94b95bdb }

/-- One `generate` call, keeping only the successor generator. -/
def step (g : Pcg32) : Pcg32 := (generate g).snd

/-- Generator reached after `k` successive `generate` calls. -/
def stepN : Nat → Pcg32 → Pcg32
  | 0, g => g
  | k + 1, g => stepN k (step g)

/-- The list of the first `n` outputs of successive `generate` calls. -/
def outputs : Pcg32 → Nat → List Nat
  | _, 0 => []
  | g, n + 1 => (generate g).fst :: outputs (step g) n

/-- A generator is valid when both fields are 64-bit values. -/
def valid (g : Pcg32) : Prop := g.state < 2 ^ 64 ∧ g.inc < 2 ^ 64

instance (g : Pcg32) : Decidable (valid g) := by
  unfold valid; infer_instance

/-- The generate step written exactly as the spec's algorithm block states it:
`state_next = (s * 6364136223846793005 + inc) mod 2^64` under a single modulus,
output `rotate_right_32(truncate32(((s >> 18) ^ s) >> 27), truncate32(s >> 59))`. -/
def generateSpec (g : Pcg32) : Nat × Pcg32 :=
  let s := g.state
  (rotr32 ((((s >>> 18) ^^^ s) >>> 27) % 2 ^ 32) ((s >>> 59) % 2 ^ 32),
   { state := (s * 6364136223846793005 + g.inc) % 2 ^ 64, inc := g.inc })

/-- The constructor written exactly as the spec's algorithm block states it:
`inc = (initseq << 1) | 1` (64-bit shift) and
`state = ((inc + initstate) mod 2^64 * 6364136223846793005 + inc) mod 2^64`. -/
def newSpec (initstate initseq : Nat) : Pcg32 :=
  let inc := ((initseq <<< 1) % 2 ^ 64) ||| 1
  { state := (((inc + initstate) % 2 ^ 64) * 6364136223846793005 + inc) % 2 ^ 64
    inc := inc }

/-- Golden output vector for the default generator, copied from the first case
of the `compare_with_official_library` test fixture. -/
def officialDefaultVector : List Nat := [
    0x152ca78d, 0x027c6003, 0xcb07bbf3, 0xf98befee, 0x1cd777e3, 0xa4e29590,
    0x661e4b6d, 0x093b9e0e, 0xb7e9851d, 0xe71f2e4d, 0xbdb2a071, 0x469753f2,
    0xd4195b44, 0x8d5b2e0a, 0xe749bf46, 0x7370bb1c, 0xb9ad21f8, 0xcfad21e0,
    0x843fa922, 0xf16b535e, 0x8be6e048, 0xdd7e3483, 0xd136c7ea, 0x7886b716,
    0xdeafd023, 0xa56eeebd, 0x449dff2a, 0x30a8f133, 0x5fb4f0ef, 0x0e8c4479,
    0x1b2326a7, 0xab7f98df, 0x12423bb8, 0xbc693c36, 0x6a3430a1, 0x53aeb48e,
    0xd0b0846f, 0x07b30dc1, 0x3daa400e, 0xee475503, 0xcbd06115, 0x6b442912,
    0xa21b7bf2, 0xa1497036, 0xdbaa7d4c, 0xee844a19, 0x1242149f, 0x9b7f2319,
    0x13b5574a, 0xdacbbda7, 0x6e6f51ac, 0xbb2ce758, 0xa40b4c79, 0x52a17060,
    0x82810ae9, 0xba62b903, 0x216bcb52, 0x0c78819d, 0x586ebe6f, 0xe539ce35,
    0x2bf68cef, 0x2aca379a, 0x249ca1dd, 0x9823ce15, 0x40faab65, 0xe382c24e,
    0x35636845, 0xd2e38084, 0x914b5c23, 0x755bfb5c, 0xefc5eada, 0x752a8073,
    0x55a2c490, 0xae755d8d, 0xf6295e62, 0xe066a750, 0xdc6fcd8b, 0x269948c6,
    0x0c34ddff, 0xe95a401c, 0xf90e404a, 0x4d9e2ed2, 0x31146cd4, 0x85d595dd,
    0x2671f802, 0x01039001, 0x9696a286, 0x0833f03d, 0xd132f08d, 0xaa8f5d48,
    0xf4cdd3ec, 0x3d9f75d5, 0xe9cb0fa5, 0x0333d581, 0x26f5cbf2, 0xe6e318a5,
    0xc1b495a7, 0x2c165c7b, 0x8ef4a460, 0x2fb3b822, 0xded1f339, 0xbb0f2779,
    0x993a456c, 0xaf4adfc5, 0x81befafc, 0xd2782e01, 0xa31969a4, 0xd162454b,
    0xaeb32e05, 0x2b574d96, 0x457594d4, 0x5c6b9dae, 0x58aed378, 0x957f1712,
    0x456acaf8, 0x04e34857, 0x5c5fe2b4, 0xfce85f57, 0x1579d5ba, 0xcb84f4fa,
    0xd60e4d1b, 0x12bf8237, 0x9dacac42, 0x39c33b82, 0x2ea83e2f, 0x06305065,
    0x2c09559e, 0x7069564b, 0x0388ada6, 0x13bf868e, 0x3856f6d1, 0x6f306183,
    0x0f4974e3, 0x1c56c0f0, 0x499e5d63, 0x15423dbd, 0x407fc8a0, 0xa9c97b23,
    0xdfdffdb1, 0x74b65c7c, 0x11efa393, 0x4bf1609f, 0x24666240, 0xd5abb7da,
    0xf6ff5afb, 0x4ce224b4, 0x07bfbf6d, 0xf92e8326, 0xec098605, 0xa64df396,
    0x365a5867, 0x0e2d8454, 0xaf98eae6, 0x03f6076d, 0x55c3bd38, 0x0007c9bb,
    0x9b8fc18f, 0x52667654, 0xa505ec95, 0x14e76502, 0xc56f9a27, 0xa1c0d691,
    0xd1be0215, 0x87fd6765, 0x38488a79, 0xb0e92730, 0xc7b7991a, 0xaec5501c,
    0x8a30014f, 0xad0f78ab, 0x5b55ca17, 0x7d534328, 0x24d4bf4b, 0xe4a0a4ea,
    0xd3477948, 0x5091bbca, 0xd5652ace, 0xb7ae7ff5, 0xc8286a8d, 0x11f06d6f,
    0x16c2fcbe, 0x1b056dee, 0x8682ad52, 0xd8ed7ce4, 0xd3baa41f, 0xc512730b,
    0x06e98ce6, 0x1ebb80d8, 0x1fc324a2, 0x3ae73691, 0x31c92de0, 0x74c190d2,
    0xbd01a22c, 0xd7853911, 0x4b6c61d6, 0x617f2bf4, 0x7fec94a2, 0x23b4df61,
    0x6e313ca3, 0xa581a91f, 0x865e3640, 0x46d33a4a, 0x3b69032f, 0x4e5c79b8,
    0x119fb6db, 0x12e9ec15, 0xf58379dc, 0xb8050454, 0x0a17d9be, 0x7f772c04,
    0xe11068e9, 0x859fb1de, 0x66915631, 0x566194b8, 0x0e9bc96a, 0x25f0ec0a,
    0x068a4b0d, 0x812aca2b, 0x96099ea7, 0x1280bac3, 0x9d90e17f, 0x23479d99,
    0xf4a59874, 0xa640945f, 0x6e386ccd, 0x8ae7965c, 0x9623da01, 0x8d878907,
    0x3f52e398, 0x237673b0, 0x99de2c25, 0x03a32d0c, 0x647cd5f4, 0x2f3a418e,
    0x70e415f5, 0xbb5054ee, 0x97135f89, 0xbea5f514, 0xcaecd59f, 0x102724ab,
    0xcd597253, 0xce46fb98, 0xbc55f6fa, 0xdd3188d6, 0x9528a70e, 0x641ac279,
    0xcf4f0ce5, 0x1f8a509d, 0xcce7797c, 0x1aff28ca, 0xef7d31c7, 0xe9512931,
    0x9f5f01d8, 0x94a3faf9, 0x28f9d8bd, 0xd2bb5c90]

end Pcg32

/-- Helper: forcing the low bit with `||| 1` makes a natural number odd. -/
theorem lorOneOdd (x : Nat) : (x ||| 1) &&& 1 = 1 := by
  rw [Nat.and_one_is_mod]
  have h : (x ||| 1).testBit 0 = true := by simp [Nat.testBit_or]
  simpa [Nat.testBit_zero] using h

/-- Helper: `stepN` never changes the `inc` field. -/
theorem stepN_inc (k : Nat) (g : Pcg32) : (Pcg32.stepN k g).inc = g.inc := by
  induction k generalizing g with
  | zero => rfl
  | succ n ih => exact ih (Pcg32.step g)

/-- Helper: an inner modulus under a product inside a sum can be dropped. -/
theorem modMulAdd (a b c n : Nat) : (a % n * c + b) % n = (a * c + b) % n := by
  conv_lhs => rw [Nat.add_mod, Nat.mod_mul_mod, ← Nat.add_mod]

/-- Helper: XOR-ing bit 63 into a value is erased by the wrapping 64-bit left
shift by one. -/
theorem xorMsbShift (j : Nat) :
    ((j ^^^ 2 ^ 63) <<< 1) % 2 ^ 64 = (j <<< 1) % 2 ^ 64 := by
  apply Nat.eq_of_testBit_eq
  intro i
  simp only [Nat.testBit_mod_two_pow, Nat.testBit_shiftLeft, Nat.testBit_xor,
    Nat.testBit_two_pow]
  rcases Nat.lt_or_ge i 64 with h | h
  · rcases Nat.eq_zero_or_pos i with h0 | h0
    · subst h0; simp
    · have h63 : (63 = i - 1) = False := by simp; omega
      simp [h63]
  · have hge : (i < 64) = False := by simp; omega
    simp [hge]

/-- Claim C1: `generate` captures `s = state`, sets the state to
`(s * 6364136223846793005 + inc) mod 2^64`, and returns the 32-bit right
rotation of the truncated xorshifted value by the truncated `s >> 59`,
exactly as the spec's algorithm block states it. -/
theorem pcg32_generate_matches_spec (g : Pcg32) :
    Pcg32.generate g = Pcg32.generateSpec g := by
  simp [Pcg32.generate, Pcg32.generateSpec, Pcg32.xorshift32, Pcg32.rotAmount,
    MUL, Nat.mod_add_mod]

/-- Claim C2: `new` uses exactly the multiplier 6364136223846793005 and, for
every seed pair, produces `inc = (initseq << 1) | 1` and
`state = ((inc + initstate) mod 2^64 * MUL + inc) mod 2^64`, all operations
wrapping modulo `2 ^ 64`. -/
theorem pcg32_new_matches_spec :
    MUL = 6364136223846793005 ∧
      ∀ initstate initseq : Nat,
        Pcg32.new initstate initseq = Pcg32.newSpec initstate initseq := by
  refine ⟨rfl, fun i j => ?_⟩
  simp [Pcg32.new, Pcg32.newSpec, MUL, Nat.mod_add_mod, modMulAdd]

set_option maxRecDepth 20000 in
/-- Claim C3 counterexample: the reference vector of the test fixture for the
default generator has 256 entries, not 226 as the claim states. -/
theorem pcg32_default_vector_length_ne_226 :
    Pcg32.officialDefaultVector.length = 256 ∧
      Pcg32.officialDefaultVector.length ≠ 226 := by
  constructor
  · rfl
  · decide

set_option maxRecDepth 40000 in
/-- Claim C3 (amended): the default generator holds exactly the hardcoded
constants `state = 0x853c49e6748fea9b`, `inc = 0xda3e39cb94b95bdb`, its first
two outputs are 0x152ca78d and 0x027c6003, and its first 256 outputs equal the
full 256-value reference vector of the test fixture. -/
theorem pcg32_default_matches_reference_vector :
    Pcg32.default = { state := 0x853c49e6748fea9b, inc := 0xda3e39cb94b95bdb } ∧
      Pcg32.outputs Pcg32.default 2 = [0x152ca78d, 0x027c6003] ∧
      Pcg32.outputs Pcg32.default 256 = Pcg32.officialDefaultVector := by
  refine ⟨rfl, by decide, by decide⟩

/-- Claim C5: every generator reachable from `new` — for any `initstate`,
`initseq` and any number `k` of `generate` calls — holds an odd `inc`. -/
theorem pcg32_inc_always_odd (initstate initseq k : Nat) :
    (Pcg32.stepN k (Pcg32.new initstate initseq)).inc &&& 1 = 1 := by
  rw [stepN_inc]
  exact lorOneOdd _

/-- Claim C7: `new` and `generate` are total, and every generator reachable
from `new` by any number of `generate` calls is a valid generator (both fields
are 64-bit values), for every input seed pair including 0 and `u64::MAX`. -/
theorem pcg32_reachable_generators_valid (initstate initseq k : Nat) :
    Pcg32.valid (Pcg32.stepN k (Pcg32.new initstate initseq)) := by
  have hstep : ∀ g : Pcg32, Pcg32.valid g → Pcg32.valid (Pcg32.step g) := by
    intro g hg
    exact ⟨Nat.mod_lt _ (Nat.two_pow_pos 64), hg.2⟩
  have hnew : Pcg32.valid (Pcg32.new initstate initseq) := by
    constructor
    · exact Nat.mod_lt _ (Nat.two_pow_pos 64)
    · show ((initseq <<< 1) % 2 ^ 64) ||| 1 < 2 ^ 64
      exact Nat.bitwise_lt (Nat.mod_lt _ (Nat.two_pow_pos 64)) (by norm_num)
  have main : ∀ n (g : Pcg32), Pcg32.valid g → Pcg32.valid (Pcg32.stepN n g) := by
    intro n
    induction n with
    | zero => intro g hg; exact hg
    | succ m ih => intro g hg; exact ih (Pcg32.step g) (hstep g hg)
  exact main k _ hnew

/-- Claim C8: the most-significant bit of `initseq` is ignored: `new` returns
the same generator for `initseq` and `initseq XOR 2^63`. -/
theorem pcg32_initseq_msb_ignored (initstate initseq : Nat) :
    Pcg32.new initstate initseq = Pcg32.new initstate (initseq ^^^ 2 ^ 63) := by
  simp only [Pcg32.new, xorMsbShift]

/-- Claim C9: the rotation amount of `generate` is always in `[0, 31]` for a
64-bit state, and whenever the top 5 bits of the captured state are zero the
output is the unrotated xorshifted value. -/
theorem pcg32_rotation_amount_bound (g : Pcg32) :
    (g.state < 2 ^ 64 → Pcg32.rotAmount g.state < 32) ∧
      (g.state >>> 59 = 0 →
        (Pcg32.generate g).fst = Pcg32.xorshift32 g.state) := by
  constructor
  · intro h
    have h1 : g.state >>> 59 < 32 := by
      rw [Nat.shiftRight_eq_div_pow]; omega
    exact lt_of_le_of_lt (Nat.mod_le _ _) h1
  · intro h
    have hx : Pcg32.xorshift32 g.state < 2 ^ 32 :=
      Nat.mod_lt _ (Nat.two_pow_pos 32)
    simp only [Pcg32.generate, Pcg32.rotAmount, Pcg32.rotr32, h]
    simp [Nat.shiftLeft_eq, Nat.mul_mod_left]
    omega

/-- Claim C9 witness: at the concrete generator with `state = 5`, `inc = 3`,
the rotation amount is below 32 and the output is the unrotated xorshift. -/
theorem pcg32_rotation_amount_bound_witness :
    Pcg32.rotAmount (Pcg32.mk 5 3).state < 32 ∧
      (Pcg32.generate (Pcg32.mk 5 3)).fst =
        Pcg32.xorshift32 (Pcg32.mk 5 3).state :=
  ⟨(pcg32_rotation_amount_bound (Pcg32.mk 5 3)).1 (by decide),
   (pcg32_rotation_amount_bound (Pcg32.mk 5 3)).2 (by decide)⟩

/-- Claim C4: the seeded generator of the crate's doc example,
`new(0xff30652539ebeaa9, 0x315bfae48ade2146)`, yields 0xf98695e1 on its first
`generate` call and 0x7e3920e2 on its second. -/
theorem pcg32_seeded_first_two_outputs :
    Pcg32.outputs (Pcg32.new 0xff30652539ebeaa9 0x315bfae48ade2146) 2 =
      [0xf98695e1, 0x7e3920e2] := by decide

/-- Claim C10: the hidden method `gen` is observationally identical to
`generate`: same returned value and same resulting generator state. -/
theorem pcg32_gen_eq_generate (g : Pcg32) : Pcg32.gen g = Pcg32.generate g := rfl

/-- Claim C6: a `generate` call leaves the `inc` field exactly unchanged; the
generator after the call differs from the one before only in `state`. -/
theorem pcg32_generate_preserves_inc (g : Pcg32) :
    ((Pcg32.generate g).snd).inc = g.inc := rfl
